import Mathlib

set_option maxRecDepth 8192

/-!
Verification development for the YouTube video-resolution pipeline of the
`aura` repository (`src/services/youtube_service.py`).

The Python code is shallowly embedded below.  Outbound I/O (the YouTube Data
API client and the HTTP session used for scraping) is modelled by oracles:
a function from the index of the request issued during one call to the
outcome of that request.  Each search entry point returns, besides the
`Option String` result of the Python function, the number of requests it
issued, so that claims about which requests happen ("no later variant issues
a request", "zero API calls") are statable.
-/

/-! ## Python string primitives -/

/-- Python's `str.lower()` (ASCII case folding, as used by the code). -/
def lower (s : String) : String := String.mk (s.data.map Char.toLower)

/-- Python's `str.strip()`: drop leading and trailing whitespace. -/
def strip (s : String) : String :=
  String.mk (((s.data.dropWhile Char.isWhitespace).reverse.dropWhile Char.isWhitespace).reverse)

/-- Helper for `py_in`: scan the haystack for an occurrence of the needle. -/
def contains_aux (needle : List Char) : List Char → Bool
  | [] => needle.isPrefixOf []
  | c :: cs => needle.isPrefixOf (c :: cs) || contains_aux needle cs

/-- Python's substring test `needle in hay`. -/
def py_in (needle hay : String) : Bool := contains_aux needle.data hay.data

/-- Helper for `py_split`: accumulate the current word (reversed). -/
def split_ws (acc : List Char) : List Char → List String
  | [] => if acc.isEmpty then [] else [String.mk acc.reverse]
  | c :: cs =>
    if c.isWhitespace then
      if acc.isEmpty then split_ws [] cs
      else String.mk acc.reverse :: split_ws [] cs
    else split_ws (c :: acc) cs

/-- Python's `str.split()` with no argument: split on whitespace runs,
dropping empty pieces. -/
def py_split (s : String) : List String := split_ws [] s.data

/-- Python's `sep.join(xs)`. -/
def py_join (sep : String) : List String → String
  | [] => ""
  | [x] => x
  | x :: y :: xs => x ++ sep ++ py_join sep (y :: xs)

/-! ## `_is_valid_video_id` -/

/-- A character of the class `[a-zA-Z0-9_-]` of the validation regex. -/
def is_id_char (c : Char) : Bool :=
  ('a' ≤ c && c ≤ 'z') || ('A' ≤ c && c ≤ 'Z') || ('0' ≤ c && c ≤ '9') || c = '_' || c = '-'

/-- The `invalid_patterns` denylist of `_is_valid_video_id`. -/
def invalid_patterns : List String := ["AAAAAAAAAAA", "undefined", "null", "true", "false"]

/-- Embeds `YouTubeService._is_valid_video_id`: length 11, all characters in
`[a-zA-Z0-9_-]`, and not one of the known invalid placeholder strings. -/
def is_valid_video_id (video_id : String) : Bool :=
  if video_id = "" ∨ video_id.length ≠ 11 then false
  else if !(video_id.data.all is_id_char) then false
  else if video_id ∈ invalid_patterns then false
  else true

/-! ## API search strategy (`_search_with_api`) -/

/-- One search result item: `item['id']['videoId']`, `snippet['title']`,
`snippet['description']`. -/
structure ApiItem where
  videoId : String
  title : String
  description : String
deriving DecidableEq

/-- Outcome of one `youtube_api.search().list(...).execute()` call:
an `HttpError` with a status code, any other exception, or a response whose
`items` list is the given one (an absent `items` key is the empty list). -/
inductive ApiOutcome where
  | httpError (status : Nat)
  | exc
  | respOk (items : List ApiItem)
deriving DecidableEq

/-- Python expression `" ".join(artists[:2]) if artists else ""`. -/
def artist_str (artists : List String) : String :=
  if artists = [] then "" else py_join " " (artists.take 2)

/-- The ordered query variants of `_search_with_api`. -/
def api_queries (song_title : String) (artists : List String) : List String :=
  [song_title ++ " " ++ artist_str artists ++ " official audio",
   song_title ++ " " ++ artist_str artists ++ " official",
   song_title ++ " " ++ artist_str artists,
   song_title ++ " " ++ artist_str artists ++ " music"]

/-- The keywords whose presence in a candidate title makes the scan skip it. -/
def filtered_keywords : List String := ["#shorts", "playlist", "mix", "compilation"]

/-- The `title_match` flag of the API scan: the lowercased song title occurs in the
candidate title, or some word of it longer than 3 characters does. -/
def title_match (song_title_lower title : String) : Bool :=
  py_in song_title_lower title ||
    ((py_split song_title_lower).filter (fun w => w.length > 3)).any
      (fun w => py_in w title)

/-- The `artist_match` flag of the API scan: no artist string was supplied, or one of
the first two artists occurs (lowercased) in the candidate title or
description. -/
def artist_match (artist_s : String) (artists : List String)
    (title description : String) : Bool :=
  artist_s = "" ||
    (artists.take 2).any (fun artist =>
      py_in (lower artist) title || py_in (lower artist) description)

/-- The `is_official` flag of the API scan. -/
def is_official (title : String) : Bool :=
  py_in "official" title || py_in "official audio" title || py_in "official video" title

/-- The body of the `for item in response['items']` loop of `_search_with_api`
for a single item: `some id` when selection rule (a) or (b) fires, `none` when
the scan moves on to the next item. -/
def api_item_decision (song_title_lower artist_s : String) (artists : List String)
    (item : ApiItem) : Option String :=
  let title := lower item.title
  let description := lower item.description
  if !(is_valid_video_id item.videoId) then none
  else
    let title_lower := lower title
    if filtered_keywords.any (fun k => py_in k title_lower) then none
    else
      let tm := title_match song_title_lower title
      let am := artist_match artist_s artists title description
      let off := is_official title
      if off && (tm || am) then some item.videoId
      else if tm && am then some item.videoId
      else none

/-- The `for item in response['items']` loop: first item for which a selection
rule fires wins. -/
def api_scan_items (song_title_lower artist_s : String) (artists : List String) :
    List ApiItem → Option String
  | [] => none
  | item :: rest =>
    match api_item_decision song_title_lower artist_s artists item with
    | some v => some v
    | none => api_scan_items song_title_lower artist_s artists rest

/-- The `for search_query in queries` loop of `_search_with_api`, instrumented
with the number of API requests issued.  `n` is the index of the next request
with respect to the oracle `api`.  A 403 `HttpError` executes `break`; other
errors and exceptions `continue`; a variant with a nonempty `items` list whose
scan fires no rule returns its first item's ID when that ID is format-valid
(the "first result" fallback), and otherwise falls through to the next
variant. -/
def api_loop (song_title_lower artist_s : String) (artists : List String)
    (api : Nat → ApiOutcome) : Nat → List String → Option String × Nat
  | _, [] => (none, 0)
  | n, _q :: rest =>
    match api n with
    | .httpError status =>
      if status = 403 then (none, 1)
      else
        ((api_loop song_title_lower artist_s artists api (n + 1) rest).1,
         (api_loop song_title_lower artist_s artists api (n + 1) rest).2 + 1)
    | .exc =>
      ((api_loop song_title_lower artist_s artists api (n + 1) rest).1,
       (api_loop song_title_lower artist_s artists api (n + 1) rest).2 + 1)
    | .respOk items =>
      if items.isEmpty then
        ((api_loop song_title_lower artist_s artists api (n + 1) rest).1,
         (api_loop song_title_lower artist_s artists api (n + 1) rest).2 + 1)
      else
        match api_scan_items song_title_lower artist_s artists items with
        | some v => (some v, 1)
        | none =>
          match items.head? with
          | none =>
            ((api_loop song_title_lower artist_s artists api (n + 1) rest).1,
             (api_loop song_title_lower artist_s artists api (n + 1) rest).2 + 1)
          | some first =>
            if is_valid_video_id first.videoId then (some first.videoId, 1)
            else
              ((api_loop song_title_lower artist_s artists api (n + 1) rest).1,
               (api_loop song_title_lower artist_s artists api (n + 1) rest).2 + 1)

/-- Embeds `YouTubeService._search_with_api`, with the request oracle `api`.
Returns the result and the number of API requests issued. -/
def search_with_api (song_title : String) (artists : List String)
    (api : Nat → ApiOutcome) : Option String × Nat :=
  api_loop (lower song_title) (artist_str artists) artists api 0
    (api_queries song_title artists)

example :
    search_with_api "Blinding Lights" ["The Weeknd"]
      (fun _ => .respOk [⟨"4NRXx6U8ABQ", "The Weeknd - Blinding Lights (Official Video)", "..."⟩])
      = (some "4NRXx6U8ABQ", 1) := by decide

example :
    search_with_api "X" [] (fun _ => .respOk []) = (none, 4) := by decide

/-! ## Scraping strategy (`_search_with_scraping`) -/

/-- A JSON value, as produced by `json.loads`. -/
inductive Json where
  | null
  | jbool (b : Bool)
  | jnum (n : Int)
  | jstr (s : String)
  | jarr (elems : List Json)
  | jobj (fields : List (String × Json))

/-- Python truthiness of a JSON value. -/
def Json.truthy : Json → Bool
  | .null => false
  | .jbool b => b
  | .jnum n => n ≠ 0
  | .jstr s => s ≠ ""
  | .jarr l => !l.isEmpty
  | .jobj f => !f.isEmpty

/-- Python's `d.get(key, dflt)`: field lookup with default on a dict; on any other
value Python raises `AttributeError`, modelled as `Except.error`. -/
def jget (j : Json) (key : String) (dflt : Json) : Except Unit Json :=
  match j with
  | .jobj fields => .ok ((fields.lookup key).getD dflt)
  | _ => .error ()

/-- Python's `for x in j`: iterating an array yields its elements; iterating an empty
dict or empty string yields nothing; every other iteration either raises at
the `for` itself or yields values whose first use in the loop bodies below
raises, so it is modelled as an error. -/
def jiter (j : Json) : Except Unit (List Json) :=
  match j with
  | .jarr l => .ok l
  | .jobj [] => .ok []
  | .jstr "" => .ok []
  | _ => .error ()

/-- The body of the `for item in items` loop of `_extract_video_ids_from_json`
for one item: `ok (some s)` appends `s`, `ok none` moves on, `error` is a
raised exception (caught by the surrounding `except`, which keeps the IDs
collected so far). -/
def extract_item (item : Json) : Except Unit (Option String) :=
  match jget item "videoRenderer" (.jobj []) with
  | .error e => .error e
  | .ok vr =>
    if vr.truthy then
      match vr with
      | .jobj fields =>
        match fields.lookup "videoId" with
        | none => .ok none
        | some v =>
          if v.truthy then
            match v with
            | .jstr s => .ok (if is_valid_video_id s then some s else none)
            | _ => .error ()
          else .ok none
      | _ => .error ()
    else .ok none

/-- The inner `for item in items` loop; the `Bool` reports whether an
exception was raised (which aborts the whole extraction, keeping `acc`). -/
def extract_items_loop (acc : List String) : List Json → List String × Bool
  | [] => (acc, false)
  | item :: rest =>
    match extract_item item with
    | .error _ => (acc, true)
    | .ok none => extract_items_loop acc rest
    | .ok (some s) => extract_items_loop (acc ++ [s]) rest

/-- The item list of one entry of the outer loop:
`content.get('itemSectionRenderer', \x7b\x7d).get('contents', [])`, iterated. -/
def content_items (content : Json) : Except Unit (List Json) :=
  match jget content "itemSectionRenderer" (.jobj []) with
  | .error e => .error e
  | .ok isec =>
    match jget isec "contents" (.jarr []) with
    | .error e => .error e
    | .ok items => jiter items

/-- The outer `for content in contents_list` loop. -/
def extract_contents_loop (acc : List String) : List Json → List String × Bool
  | [] => (acc, false)
  | content :: rest =>
    match content_items content with
    | .error _ => (acc, true)
    | .ok items =>
      match extract_items_loop acc items with
      | (acc', true) => (acc', true)
      | (acc', false) => extract_contents_loop acc' rest

/-- A scraping response body: the raw text, together with the result of
locating the `var ytInitialData = ({...});` assignment in it and parsing the
braced blob with `json.loads` (`none` when the regex does not match; the
regex search and JSON parsing of the raw text are external-format parsing and
are modelled by this field). -/
structure HttpBody where
  ytInitialData : Option Json
  text : String

/-- Navigation of `_extract_video_ids_from_json` down to `contents_list`:
`data.get('contents', \x7b\x7d)` through `sectionListRenderer.get('contents', [])`,
iterated. -/
def nav_contents_list (data : Json) : Except Unit (List Json) :=
  match jget data "contents" (.jobj []) with
  | .error e => .error e
  | .ok contents =>
    match jget contents "twoColumnSearchResultsRenderer" (.jobj []) with
    | .error e => .error e
    | .ok two =>
      match jget two "primaryContents" (.jobj []) with
      | .error e => .error e
      | .ok prim =>
        match jget prim "sectionListRenderer" (.jobj []) with
        | .error e => .error e
        | .ok sect =>
          match jget sect "contents" (.jarr []) with
          | .error e => .error e
          | .ok cl => jiter cl

/-- Embeds `YouTubeService._extract_video_ids_from_json`: navigate
`contents → twoColumnSearchResultsRenderer → primaryContents →
sectionListRenderer → contents[] → itemSectionRenderer → contents[] →
videoRenderer → videoId`, collecting valid video IDs in document order;
any raised exception returns the IDs collected so far. -/
def extract_video_ids_from_json (body : HttpBody) : List String :=
  match body.ytInitialData with
  | none => []
  | some data =>
    match nav_contents_list data with
    | .error _ => []
    | .ok contents_list => (extract_contents_loop [] contents_list).1

/-- Python's `re.findall` over the watch-URL pattern (the literal `/watch?v=`
followed by a captured group of 11 ID-class characters): scan left to right; at a
position where the literal `/watch?v=` is followed by 11 characters of the ID
class, capture them and resume after the match; otherwise advance one
character.  The fuel argument (initially the text length) only makes the
recursion structural. -/
def watch_scan : Nat → List Char → List String
  | 0, _ => []
  | _ + 1, [] => []
  | fuel + 1, c :: cs =>
    if "/watch?v=".data.isPrefixOf (c :: cs)
        && ((cs.drop 8).take 11).length == 11
        && ((cs.drop 8).take 11).all is_id_char then
      String.mk ((cs.drop 8).take 11) :: watch_scan fuel (cs.drop 19)
    else watch_scan fuel cs

/-- The `/watch?v=` regex pass of `_search_with_scraping`. -/
def find_watch_ids (text : String) : List String :=
  watch_scan text.data.length text.data

/-- Outcome of one `self.session.get(search_url, timeout=15)` call. -/
inductive ScrapeOutcome where
  | timeout
  | exc
  | resp (status : Nat) (body : HttpBody)

/-- The `for search_query in queries` loop of `_search_with_scraping`,
instrumented with the number of HTTP requests issued.  A variant whose
stripped query is empty is skipped without a request; a 200 response runs the
embedded-JSON pass and then, over the same body, the `/watch?v=` regex pass,
returning the first format-valid ID either pass finds; any other status,
a timeout, or an exception falls through to the next variant. -/
def scrape_loop (http : Nat → ScrapeOutcome) : Nat → List String → Option String × Nat
  | _, [] => (none, 0)
  | n, q :: rest =>
    if strip q = "" then scrape_loop http n rest
    else
      match http n with
      | .timeout =>
        ((scrape_loop http (n + 1) rest).1, (scrape_loop http (n + 1) rest).2 + 1)
      | .exc =>
        ((scrape_loop http (n + 1) rest).1, (scrape_loop http (n + 1) rest).2 + 1)
      | .resp status body =>
        if status = 200 then
          match (extract_video_ids_from_json body).find? is_valid_video_id with
          | some v => (some v, 1)
          | none =>
            match (find_watch_ids body.text).find? is_valid_video_id with
            | some v => (some v, 1)
            | none =>
              ((scrape_loop http (n + 1) rest).1, (scrape_loop http (n + 1) rest).2 + 1)
        else
          ((scrape_loop http (n + 1) rest).1, (scrape_loop http (n + 1) rest).2 + 1)

/-- The ordered query variants of `_search_with_scraping` (note the distinct
order from the API strategy: `official audio`, `official`, `music`, bare). -/
def scrape_queries (song_title : String) (artists : List String) : List String :=
  [song_title ++ " " ++ artist_str artists ++ " official audio",
   song_title ++ " " ++ artist_str artists ++ " official",
   song_title ++ " " ++ artist_str artists ++ " music",
   song_title ++ " " ++ artist_str artists]

/-- Embeds `YouTubeService._search_with_scraping`, with the request oracle `http`.
Returns the result and the number of HTTP requests issued. -/
def search_with_scraping (song_title : String) (artists : List String)
    (http : Nat → ScrapeOutcome) : Option String × Nat :=
  if song_title = "" ∨ strip song_title = "" then (none, 0)
  else scrape_loop http 0 (scrape_queries song_title artists)

/-! ## `search_video_id` and the URL builders -/

/-- The configuration read by `YouTubeService.__init__`: the
`YOUTUBE_API_KEY` environment variable, whether the Google API client library
imported, and whether `build('youtube', 'v3', ...)` succeeded. -/
structure ServiceConfig where
  apiKey : String
  apiAvailable : Bool
  buildOk : Bool

/-- Whether `self.youtube_api` is non-`None` after `__init__`. -/
def youtube_api_present (cfg : ServiceConfig) : Bool :=
  (cfg.apiKey ≠ "") && cfg.apiAvailable && cfg.buildOk

/-- Embeds `YouTubeService.search_video_id`: delegate to the API strategy when the
API client is configured, otherwise to scraping.  Returns the result, the
number of API requests issued, and the number of scraping HTTP requests
issued. -/
def search_video_id (cfg : ServiceConfig) (api : Nat → ApiOutcome)
    (http : Nat → ScrapeOutcome) (song_title : String) (artists : List String) :
    Option String × Nat × Nat :=
  if youtube_api_present cfg then
    ((search_with_api song_title artists api).1,
     (search_with_api song_title artists api).2, 0)
  else
    ((search_with_scraping song_title artists http).1, 0,
     (search_with_scraping song_title artists http).2)

/-- The fixed `params` list of `get_embed_url`; the `origin` entry carries
`requests.utils.quote('http://localhost:8000')`, which percent-encodes the
colons. -/
def embed_params : List String :=
  ["autoplay=0", "enablejsapi=1", "origin=http%3A//localhost%3A8000", "rel=0",
   "modestbranding=1", "iv_load_policy=3", "fs=0", "playsinline=1", "controls=0",
   "disablekb=1", "cc_load_policy=0", "loop=0", "mute=0", "start=0"]

/-- Embeds `YouTubeService.get_embed_url`. -/
def get_embed_url (video_id : String) : String :=
  "https://www.youtube-nocookie.com/embed/" ++ video_id ++ "?" ++ py_join "&" embed_params

/-- Embeds `YouTubeService.get_watch_url`. -/
def get_watch_url (video_id : String) : String :=
  "https://www.youtube.com/watch?v=" ++ video_id

example :
    search_with_scraping "song" []
      (fun _ => .resp 200 ⟨none, "<html>/watch?v=dQw4w9WgXcQ</html>"⟩)
      = (some "dQw4w9WgXcQ", 1) := by decide

example :
    extract_video_ids_from_json
      ⟨some (.jobj [("contents", .jobj [("twoColumnSearchResultsRenderer",
        .jobj [("primaryContents", .jobj [("sectionListRenderer",
          .jobj [("contents", .jarr [.jobj [("itemSectionRenderer",
            .jobj [("contents", .jarr [.jobj [("videoRenderer",
              .jobj [("videoId", .jstr "dQw4w9WgXcQ")])]])])]])])])])])]), ""⟩
      = ["dQw4w9WgXcQ"] := by decide

example :
    search_video_id ⟨"", true, true⟩ (fun _ => .respOk []) (fun _ => .timeout) "X" []
      = (none, 0, 4) := by decide

example : is_valid_video_id "dQw4w9WgXcQ" = true := by decide
example : is_valid_video_id "AAAAAAAAAAA" = false := by decide
example : is_valid_video_id "undefined" = false := by decide
example : py_in "lights" "blinding lights" = true := by decide
example : py_in "zz" "blinding lights" = false := by decide
example : py_split "  a bb  ccc " = ["a", "bb", "ccc"] := by decide
example : lower "Ab-C" = "ab-c" := by decide
example : strip "  x y  " = "x y" := by decide

/-! ## Helper lemmas -/

theorem str_data_append (a b : String) : (a ++ b).data = a.data ++ b.data := by
  cases a
  cases b
  rfl

theorem str_append_assoc (a b c : String) : a ++ b ++ c = a ++ (b ++ c) := by
  cases a with
  | mk x =>
    cases b with
    | mk y =>
      cases c with
      | mk z =>
        show String.mk (x ++ y ++ z) = String.mk (x ++ (y ++ z))
        rw [List.append_assoc]

theorem isPrefixOf_self_append (n m : List Char) : n.isPrefixOf (n ++ m) = true := by
  induction n with
  | nil => simp [List.isPrefixOf]
  | cons c cs ih => simp [List.isPrefixOf, ih]

theorem contains_aux_append (n : List Char) : ∀ (p m : List Char),
    contains_aux n (p ++ (n ++ m)) = true := by
  intro p
  induction p with
  | nil =>
    intro m
    simp only [List.nil_append]
    cases h : n ++ m with
    | nil =>
      have hn : n = [] := (List.append_eq_nil.mp h).1
      subst hn
      simp [contains_aux, List.isPrefixOf]
    | cons c cs =>
      simp only [contains_aux]
      rw [← h, isPrefixOf_self_append]
      simp
  | cons c p' ih =>
    intro m
    simp only [List.cons_append, contains_aux, List.append_eq]
    rw [ih m]
    simp

theorem py_in_of_decomp (sub hay : String) (p s : List Char)
    (h : hay.data = p ++ (sub.data ++ s)) : py_in sub hay = true := by
  unfold py_in
  rw [h]
  exact contains_aux_append sub.data p s

/-! ## Every returned ID passes `_is_valid_video_id` -/

theorem api_item_decision_valid (st ar : String) (a : List String) (item : ApiItem)
    (v : String) (h : api_item_decision st ar a item = some v) :
    is_valid_video_id v = true := by
  simp only [api_item_decision] at h
  split_ifs at h <;> simp_all

theorem api_scan_items_valid (st ar : String) (a : List String) :
    ∀ (items : List ApiItem) (v : String),
      api_scan_items st ar a items = some v → is_valid_video_id v = true := by
  intro items
  induction items with
  | nil => intro v h; simp [api_scan_items] at h
  | cons item rest ih =>
    intro v h
    rw [api_scan_items] at h
    cases hd : api_item_decision st ar a item with
    | some w =>
      rw [hd] at h
      cases h
      exact api_item_decision_valid st ar a item v hd
    | none =>
      rw [hd] at h
      exact ih v h

theorem api_loop_fst_valid (st ar : String) (a : List String) (api : Nat → ApiOutcome) :
    ∀ (qs : List String) (n : Nat) (v : String),
      (api_loop st ar a api n qs).1 = some v → is_valid_video_id v = true := by
  intro qs
  induction qs with
  | nil => intro n v h; simp [api_loop] at h
  | cons q rest ih =>
    intro n v h
    rw [api_loop] at h
    cases hapi : api n with
    | httpError status =>
      simp only [hapi] at h
      by_cases hs : status = 403
      · rw [if_pos hs] at h
        exact absurd h (by simp)
      · rw [if_neg hs] at h
        exact ih (n + 1) v h
    | exc =>
      simp only [hapi] at h
      exact ih (n + 1) v h
    | respOk items =>
      simp only [hapi] at h
      by_cases he : items.isEmpty = true
      · rw [if_pos he] at h
        exact ih (n + 1) v h
      · rw [if_neg he] at h
        cases hscan : api_scan_items st ar a items with
        | some w =>
          rw [hscan] at h
          have h' : some w = some v := h
          cases h'
          exact api_scan_items_valid st ar a items v hscan
        | none =>
          rw [hscan] at h
          cases hh : items.head? with
          | none =>
            simp only [hh] at h
            exact ih (n + 1) v h
          | some first =>
            simp only [hh] at h
            by_cases hv : is_valid_video_id first.videoId = true
            · rw [if_pos hv] at h
              have h' : some first.videoId = some v := h
              cases h'
              exact hv
            · rw [if_neg hv] at h
              exact ih (n + 1) v h

theorem search_with_api_fst_valid (t : String) (a : List String)
    (api : Nat → ApiOutcome) (v : String)
    (h : (search_with_api t a api).1 = some v) : is_valid_video_id v = true :=
  api_loop_fst_valid (lower t) (artist_str a) a api (api_queries t a) 0 v h

theorem scrape_loop_fst_valid (http : Nat → ScrapeOutcome) :
    ∀ (qs : List String) (n : Nat) (v : String),
      (scrape_loop http n qs).1 = some v → is_valid_video_id v = true := by
  intro qs
  induction qs with
  | nil => intro n v h; simp [scrape_loop] at h
  | cons q rest ih =>
    intro n v h
    rw [scrape_loop] at h
    by_cases hq : strip q = ""
    · rw [if_pos hq] at h
      exact ih n v h
    · rw [if_neg hq] at h
      cases hhttp : http n with
      | timeout =>
        simp only [hhttp] at h
        exact ih (n + 1) v h
      | exc =>
        simp only [hhttp] at h
        exact ih (n + 1) v h
      | resp status body =>
        simp only [hhttp] at h
        by_cases hs : status = 200
        · rw [if_pos hs] at h
          cases hj : (extract_video_ids_from_json body).find? is_valid_video_id with
          | some w =>
            rw [hj] at h
            have h' : some w = some v := h
            cases h'
            exact List.find?_some hj
          | none =>
            rw [hj] at h
            cases hw : (find_watch_ids body.text).find? is_valid_video_id with
            | some w =>
              rw [hw] at h
              have h' : some w = some v := h
              cases h'
              exact List.find?_some hw
            | none =>
              rw [hw] at h
              exact ih (n + 1) v h
        · rw [if_neg hs] at h
          exact ih (n + 1) v h

theorem search_with_scraping_fst_valid (t : String) (a : List String)
    (http : Nat → ScrapeOutcome) (v : String)
    (h : (search_with_scraping t a http).1 = some v) : is_valid_video_id v = true := by
  unfold search_with_scraping at h
  by_cases h1 : t = "" ∨ strip t = ""
  · rw [if_pos h1] at h
    exact absurd h (by simp)
  · rw [if_neg h1] at h
    exact scrape_loop_fst_valid http (scrape_queries t a) 0 v h

theorem search_video_id_fst_valid (cfg : ServiceConfig) (api : Nat → ApiOutcome)
    (http : Nat → ScrapeOutcome) (t : String) (a : List String) (v : String)
    (h : (search_video_id cfg api http t a).1 = some v) : is_valid_video_id v = true := by
  unfold search_video_id at h
  by_cases h1 : youtube_api_present cfg = true
  · rw [if_pos h1] at h
    exact search_with_api_fst_valid t a api v h
  · rw [if_neg h1] at h
    exact search_with_scraping_fst_valid t a http v h

theorem is_valid_video_id_spec (v : String) (h : is_valid_video_id v = true) :
    v.length = 11 ∧ (∀ c ∈ v.data, is_id_char c = true) ∧
      v ∉ (["AAAAAAAAAAA", "undefined", "null", "true", "false"] : List String) := by
  unfold is_valid_video_id at h
  split_ifs at h with h1 h2 h3
  push_neg at h1
  refine ⟨h1.2, ?_, h3⟩
  intro c hc
  have h2' : v.data.all is_id_char = true := by
    cases hall : v.data.all is_id_char
    · rw [hall] at h2; simp at h2
    · rfl
  exact List.all_eq_true.mp h2' c hc

/-! ## Claim C1 -/

/-- C1: for every call to `search_video_id` (over either strategy) that
returns a video ID rather than none, the returned ID has length exactly 11,
matches `[a-zA-Z0-9_-]` at every character, and is not one of the denylist
strings. -/
theorem returned_ids_are_well_formed (cfg : ServiceConfig) (api : Nat → ApiOutcome)
    (http : Nat → ScrapeOutcome) (t : String) (a : List String) (id : String)
    (h : (search_video_id cfg api http t a).1 = some id) :
    id.length = 11 ∧ (∀ c ∈ id.data, is_id_char c = true) ∧
      id ∉ (["AAAAAAAAAAA", "undefined", "null", "true", "false"] : List String) :=
  is_valid_video_id_spec id (search_video_id_fst_valid cfg api http t a id h)

/-- Witness for C1 at a concrete scraping run that returns an ID. -/
theorem returned_ids_are_well_formed_witness :
    (search_video_id ⟨"", true, true⟩ (fun _ => .respOk [])
        (fun _ => .resp 200 ⟨none, "<html>/watch?v=dQw4w9WgXcQ</html>"⟩) "song" []).1
      = some "dQw4w9WgXcQ" ∧
    ("dQw4w9WgXcQ".length = 11 ∧ (∀ c ∈ "dQw4w9WgXcQ".data, is_id_char c = true) ∧
      "dQw4w9WgXcQ" ∉ (["AAAAAAAAAAA", "undefined", "null", "true", "false"] : List String)) :=
  ⟨by decide,
   returned_ids_are_well_formed ⟨"", true, true⟩ (fun _ => .respOk [])
     (fun _ => .resp 200 ⟨none, "<html>/watch?v=dQw4w9WgXcQ</html>"⟩) "song" []
     "dQw4w9WgXcQ" (by decide)⟩

/-! ## Claim C5 -/

/-- C5: for every input and every combination of request outcomes (including
authorization/quota failures, transient failures, parse failures and invalid
candidates), `search_video_id` returns either a format-valid video ID or
none; the embedding is a total function, so no exception or error value can
reach the caller. -/
theorem search_video_id_total_and_valid (cfg : ServiceConfig) (api : Nat → ApiOutcome)
    (http : Nat → ScrapeOutcome) (t : String) (a : List String) :
    (search_video_id cfg api http t a).1 = none ∨
      ∃ id, (search_video_id cfg api http t a).1 = some id ∧
        is_valid_video_id id = true := by
  cases h : (search_video_id cfg api http t a).1 with
  | none => exact Or.inl rfl
  | some id =>
    exact Or.inr ⟨id, rfl, search_video_id_fst_valid cfg api http t a id h⟩

/-! ## Claim C9 -/

/-- C9: the URL builders are pure and deterministic, `get_embed_url` targets
the `youtube-nocookie.com` domain, and its output contains the parameters
`autoplay=0`, `rel=0` and `controls=0`. -/
theorem url_builders_pure_and_fixed (video_id : String) :
    get_embed_url video_id = get_embed_url video_id ∧
    get_watch_url video_id = get_watch_url video_id ∧
    (∃ s, get_embed_url video_id = "https://www.youtube-nocookie.com/embed/" ++ s) ∧
    py_in "autoplay=0" (get_embed_url video_id) = true ∧
    py_in "rel=0" (get_embed_url video_id) = true ∧
    py_in "controls=0" (get_embed_url video_id) = true := by
  have hdata : (get_embed_url video_id).data =
      ("https://www.youtube-nocookie.com/embed/" : String).data ++
        (video_id.data ++ (("?" : String).data ++ (py_join "&" embed_params).data)) := by
    unfold get_embed_url
    simp [str_data_append, List.append_assoc]
  refine ⟨rfl, rfl, ?_, ?_, ?_, ?_⟩
  · refine ⟨video_id ++ ("?" ++ py_join "&" embed_params), ?_⟩
    unfold get_embed_url
    rw [str_append_assoc, str_append_assoc]
  · apply py_in_of_decomp _ _
      (("https://www.youtube-nocookie.com/embed/" : String).data ++
        (video_id.data ++ ("?" : String).data))
      (("&enablejsapi=1&origin=http%3A//localhost%3A8000&rel=0&modestbranding=1&iv_load_policy=3&fs=0&playsinline=1&controls=0&disablekb=1&cc_load_policy=0&loop=0&mute=0&start=0" : String).data)
    rw [hdata]
    have hP : (py_join "&" embed_params).data =
        ("autoplay=0" : String).data ++
          ("&enablejsapi=1&origin=http%3A//localhost%3A8000&rel=0&modestbranding=1&iv_load_policy=3&fs=0&playsinline=1&controls=0&disablekb=1&cc_load_policy=0&loop=0&mute=0&start=0" : String).data := by
      decide
    rw [hP]
    simp [List.append_assoc]
  · apply py_in_of_decomp _ _
      (("https://www.youtube-nocookie.com/embed/" : String).data ++
        (video_id.data ++ (("?" : String).data ++
          ("autoplay=0&enablejsapi=1&origin=http%3A//localhost%3A8000&" : String).data)))
      (("&modestbranding=1&iv_load_policy=3&fs=0&playsinline=1&controls=0&disablekb=1&cc_load_policy=0&loop=0&mute=0&start=0" : String).data)
    rw [hdata]
    have hP : (py_join "&" embed_params).data =
        ("autoplay=0&enablejsapi=1&origin=http%3A//localhost%3A8000&" : String).data ++
          (("rel=0" : String).data ++
            ("&modestbranding=1&iv_load_policy=3&fs=0&playsinline=1&controls=0&disablekb=1&cc_load_policy=0&loop=0&mute=0&start=0" : String).data) := by
      decide
    rw [hP]
    simp [List.append_assoc]
  · apply py_in_of_decomp _ _
      (("https://www.youtube-nocookie.com/embed/" : String).data ++
        (video_id.data ++ (("?" : String).data ++
          ("autoplay=0&enablejsapi=1&origin=http%3A//localhost%3A8000&rel=0&modestbranding=1&iv_load_policy=3&fs=0&playsinline=1&" : String).data)))
      (("&disablekb=1&cc_load_policy=0&loop=0&mute=0&start=0" : String).data)
    rw [hdata]
    have hP : (py_join "&" embed_params).data =
        ("autoplay=0&enablejsapi=1&origin=http%3A//localhost%3A8000&rel=0&modestbranding=1&iv_load_policy=3&fs=0&playsinline=1&" : String).data ++
          (("controls=0" : String).data ++
            ("&disablekb=1&cc_load_policy=0&loop=0&mute=0&start=0" : String).data) := by
      decide
    rw [hP]
    simp [List.append_assoc]

/-! ## Claim C6 -/

/-- C6: in the API strategy, an HTTP 403 (authorization/quota) error on any
query variant aborts the variant loop immediately — exactly one request is
issued from that variant on, so no later variant issues a request — and the
call returns none; in particular a 403 on the first variant makes the whole
call return none after a single request. -/
theorem api_quota_error_aborts (st ar : String) (a : List String)
    (api : Nat → ApiOutcome) (n : Nat) (q : String) (rest : List String)
    (t : String) (a' : List String) (api' : Nat → ApiOutcome)
    (h : api n = .httpError 403) (h' : api' 0 = .httpError 403) :
    api_loop st ar a api n (q :: rest) = (none, 1) ∧
      search_with_api t a' api' = (none, 1) := by
  constructor
  · rw [api_loop, h]
    simp
  · unfold search_with_api api_queries
    rw [api_loop, h']
    simp

/-- Witness for C6: a constant-403 oracle. -/
theorem api_quota_error_aborts_witness :
    ((fun _ : Nat => ApiOutcome.httpError 403) 0 = ApiOutcome.httpError 403) ∧
    api_loop "s" "" [] (fun _ => ApiOutcome.httpError 403) 0 ["q"] = (none, 1) ∧
    search_with_api "t" [] (fun _ => ApiOutcome.httpError 403) = (none, 1) := by
  refine ⟨rfl, ?_⟩
  have h := api_quota_error_aborts "s" "" [] (fun _ => ApiOutcome.httpError 403) 0 "q" []
    "t" [] (fun _ => ApiOutcome.httpError 403) rfl rfl
  exact h

/-! ## Claim C7 -/

/-- C7: exactly one strategy runs per call — the API strategy when a
credential and API client are configured (then no scraping request is
issued), otherwise the scraping strategy (then no API request is issued);
with no credential configured the API path is never invoked: zero API calls
are made. -/
theorem exactly_one_strategy_runs (cfg : ServiceConfig) (api : Nat → ApiOutcome)
    (http : Nat → ScrapeOutcome) (t : String) (a : List String) :
    (youtube_api_present cfg = true →
      search_video_id cfg api http t a =
        ((search_with_api t a api).1, (search_with_api t a api).2, 0)) ∧
    (youtube_api_present cfg = false →
      search_video_id cfg api http t a =
        ((search_with_scraping t a http).1, 0, (search_with_scraping t a http).2)) ∧
    (cfg.apiKey = "" →
      youtube_api_present cfg = false ∧ (search_video_id cfg api http t a).2.1 = 0) := by
  refine ⟨?_, ?_, ?_⟩
  · intro h
    unfold search_video_id
    rw [if_pos h]
  · intro h
    unfold search_video_id
    rw [if_neg (by rw [h]; exact Bool.false_ne_true)]
  · intro h
    have hfalse : youtube_api_present cfg = false := by
      unfold youtube_api_present
      rw [h]
      simp
    refine ⟨hfalse, ?_⟩
    unfold search_video_id
    rw [if_neg (by rw [hfalse]; exact Bool.false_ne_true)]

/-- Witness for C7 with no credential configured. -/
theorem exactly_one_strategy_runs_witness :
    ((⟨"", true, true⟩ : ServiceConfig).apiKey = "") ∧
    (youtube_api_present ⟨"", true, true⟩ = false ∧
      (search_video_id ⟨"", true, true⟩ (fun _ => ApiOutcome.respOk [])
        (fun _ => ScrapeOutcome.timeout) "song" []).2.1 = 0) :=
  ⟨rfl,
   (exactly_one_strategy_runs ⟨"", true, true⟩ (fun _ => ApiOutcome.respOk [])
     (fun _ => ScrapeOutcome.timeout) "song" []).2.2 rfl⟩

/-! ## Claim C10 -/

/-- C10: with no API client configured, `search_video_id` on an empty or
whitespace-only title returns none and issues no HTTP request; and inside the
scraping loop, a query variant whose stripped query is empty is skipped
without a request. -/
theorem empty_title_and_empty_variant_skip (cfg : ServiceConfig)
    (api : Nat → ApiOutcome) (http : Nat → ScrapeOutcome) (t : String)
    (a : List String) (http' : Nat → ScrapeOutcome) (n : Nat) (q : String)
    (rest : List String)
    (hcfg : youtube_api_present cfg = false) (ht : strip t = "")
    (hq : strip q = "") :
    search_video_id cfg api http t a = (none, 0, 0) ∧
      scrape_loop http' n (q :: rest) = scrape_loop http' n rest := by
  constructor
  · unfold search_video_id
    rw [if_neg (by rw [hcfg]; exact Bool.false_ne_true)]
    unfold search_with_scraping
    rw [if_pos (Or.inr ht)]
  · rw [scrape_loop, if_pos hq]

/-- Witness for C10 on a whitespace-only title and variant. -/
theorem empty_title_and_empty_variant_skip_witness :
    (youtube_api_present ⟨"", true, true⟩ = false ∧ strip "  " = "" ∧ strip " " = "") ∧
    (search_video_id ⟨"", true, true⟩ (fun _ => ApiOutcome.respOk [])
        (fun _ => ScrapeOutcome.timeout) "  " ["a"] = (none, 0, 0) ∧
      scrape_loop (fun _ => ScrapeOutcome.timeout) 0 [" "] =
        scrape_loop (fun _ => ScrapeOutcome.timeout) 0 []) :=
  ⟨⟨by decide, by decide, by decide⟩,
   empty_title_and_empty_variant_skip ⟨"", true, true⟩ (fun _ => ApiOutcome.respOk [])
     (fun _ => ScrapeOutcome.timeout) "  " ["a"] (fun _ => ScrapeOutcome.timeout) 0 " " []
     (by decide) (by decide) (by decide)⟩

/-! ## Claim C2 -/

/-- Counterexample to C2: variant 0 returns one candidate whose title contains
`playlist`, so no candidate of variant 0 satisfies rule (a) or (b); variant 1
would return a candidate for which rule (a) fires; yet the strategy does not
fall through to variant 1 — it issues exactly one request and returns variant
0's first result ID, which differs from variant 1's match. -/
theorem api_fallback_is_not_deferred_counterexample :
    api_scan_items (lower "ttt") (artist_str ["aaa"]) ["aaa"]
        [⟨"abcdefghijk", "zzz playlist", ""⟩] = none ∧
    api_item_decision (lower "ttt") (artist_str ["aaa"]) ["aaa"]
        ⟨"ABCDEFGHIJK", "ttt official audio", "aaa"⟩ = some "ABCDEFGHIJK" ∧
    search_with_api "ttt" ["aaa"]
        (fun n => if n = 0 then .respOk [⟨"abcdefghijk", "zzz playlist", ""⟩]
                  else .respOk [⟨"ABCDEFGHIJK", "ttt official audio", "aaa"⟩]) =
      (some "abcdefghijk", 1) ∧
    (some "abcdefghijk" : Option String) ≠ some "ABCDEFGHIJK" :=
  ⟨by decide, by decide, by decide, by decide⟩

/-- C2 as amended: when a query variant returns a nonempty result list in
which no candidate satisfies rule (a) or (b), the strategy immediately
returns that variant's first result ID when it is format-valid, and falls
through to the next variant only when it is not; when every variant is
exhausted the loop returns none having issued no further request. -/
theorem api_fallback_is_per_variant (st ar : String) (a : List String)
    (api : Nat → ApiOutcome) (n : Nat) (q : String) (rest : List String)
    (first : ApiItem) (tl : List ApiItem)
    (h1 : api n = .respOk (first :: tl))
    (h2 : api_scan_items st ar a (first :: tl) = none) :
    api_loop st ar a api n (q :: rest) =
      (if is_valid_video_id first.videoId then (some first.videoId, 1)
       else ((api_loop st ar a api (n + 1) rest).1,
             (api_loop st ar a api (n + 1) rest).2 + 1)) ∧
    api_loop st ar a api n [] = (none, 0) := by
  constructor
  · rw [api_loop]
    simp only [h1, List.isEmpty_cons, Bool.false_eq_true, if_false, h2, List.head?_cons]
  · rfl

/-- Witness for the amended C2 at a concrete variant whose only candidate is
keyword-filtered. -/
theorem api_fallback_is_per_variant_witness :
    ((fun _ : Nat => ApiOutcome.respOk [⟨"abcdefghijk", "x playlist", ""⟩]) 0 =
        ApiOutcome.respOk [⟨"abcdefghijk", "x playlist", ""⟩] ∧
      api_scan_items "s" "" [] [⟨"abcdefghijk", "x playlist", ""⟩] = none) ∧
    (api_loop "s" "" [] (fun _ => ApiOutcome.respOk [⟨"abcdefghijk", "x playlist", ""⟩])
        0 ["q"] =
      (if is_valid_video_id (ApiItem.mk "abcdefghijk" "x playlist" "").videoId
       then (some (ApiItem.mk "abcdefghijk" "x playlist" "").videoId, 1)
       else ((api_loop "s" "" [] (fun _ => ApiOutcome.respOk
                [⟨"abcdefghijk", "x playlist", ""⟩]) 1 []).1,
             (api_loop "s" "" [] (fun _ => ApiOutcome.respOk
                [⟨"abcdefghijk", "x playlist", ""⟩]) 1 []).2 + 1)) ∧
      api_loop "s" "" [] (fun _ => ApiOutcome.respOk [⟨"abcdefghijk", "x playlist", ""⟩])
        0 [] = (none, 0)) :=
  ⟨⟨rfl, by decide⟩,
   api_fallback_is_per_variant "s" "" []
     (fun _ => ApiOutcome.respOk [⟨"abcdefghijk", "x playlist", ""⟩]) 0 "q" []
     ⟨"abcdefghijk", "x playlist", ""⟩ [] rfl (by decide)⟩

/-! ## Claim C3 -/

theorem api_scan_items_append_none (st ar : String) (a : List String) :
    ∀ (pre l : List ApiItem),
      (∀ it ∈ pre, api_item_decision st ar a it = none) →
      api_scan_items st ar a (pre ++ l) = api_scan_items st ar a l := by
  intro pre
  induction pre with
  | nil => intro l _; rfl
  | cons it pre' ih =>
    intro l hpre
    rw [List.cons_append, api_scan_items]
    rw [hpre it (List.mem_cons_self it pre')]
    exact ih l (fun x hx => hpre x (List.mem_cons_of_mem it hx))

/-- Counterexample to C3: the result set contains a non-official candidate
satisfying both title and artist match followed by an "official audio"
candidate also matching; the strategy returns the earlier non-official
candidate, not the official one. -/
theorem official_preference_counterexample :
    is_official (lower "Blinding Lights (Official Audio) Weeknd") = true ∧
    title_match (lower "Blinding Lights") (lower "Blinding Lights (Official Audio) Weeknd") = true ∧
    is_official (lower "Blinding Lights by Weeknd") = false ∧
    title_match (lower "Blinding Lights") (lower "Blinding Lights by Weeknd") = true ∧
    artist_match (artist_str ["Weeknd"]) ["Weeknd"] (lower "Blinding Lights by Weeknd") (lower "") = true ∧
    search_with_api "Blinding Lights" ["Weeknd"]
        (fun _ => .respOk [⟨"aaaaaaaaaa1", "Blinding Lights by Weeknd", ""⟩,
                           ⟨"bbbbbbbbbb2", "Blinding Lights (Official Audio) Weeknd", ""⟩]) =
      (some "aaaaaaaaaa1", 1) ∧
    (some "aaaaaaaaaa1" : Option String) ≠ some "bbbbbbbbbb2" :=
  ⟨by decide, by decide, by decide, by decide, by decide, by decide, by decide⟩

/-- C3 as amended: the API strategy returns the official candidate's ID when
the official candidate satisfying rule (a) is preceded only by candidates for
which no selection rule fires (the scan is sequential and the first rule
match wins, so a matching non-official candidate appearing earlier is
returned instead). -/
theorem official_wins_when_first_matching (st ar : String) (a : List String)
    (api : Nat → ApiOutcome) (n : Nat) (q : String) (rest : List String)
    (pre : List ApiItem) (item : ApiItem) (post : List ApiItem)
    (happi : api n = .respOk (pre ++ item :: post))
    (hpre : ∀ it ∈ pre, api_item_decision st ar a it = none)
    (hv : is_valid_video_id item.videoId = true)
    (hkw : filtered_keywords.any (fun k => py_in k (lower (lower item.title))) = false)
    (hoff : is_official (lower item.title) = true)
    (hmatch : (title_match st (lower item.title) ||
               artist_match ar a (lower item.title) (lower item.description)) = true) :
    api_loop st ar a api n (q :: rest) = (some item.videoId, 1) := by
  have hdec : api_item_decision st ar a item = some item.videoId := by
    simp [api_item_decision, hv, hkw, hoff, hmatch]
  have hscan : api_scan_items st ar a (pre ++ item :: post) = some item.videoId := by
    rw [api_scan_items_append_none st ar a pre (item :: post) hpre]
    rw [api_scan_items]
    simp only [hdec]
  have hne : (pre ++ item :: post).isEmpty = false := by
    cases pre <;> rfl
  rw [api_loop]
  simp only [happi, hne, Bool.false_eq_true, if_false, hscan]

/-- Witness for the amended C3: an official matching candidate first in the
list, followed by a non-official matching candidate. -/
theorem official_wins_when_first_matching_witness :
    ((fun _ : Nat => ApiOutcome.respOk
        [⟨"bbbbbbbbbb2", "Blinding Lights (Official Audio) Weeknd", ""⟩,
         ⟨"aaaaaaaaaa1", "Blinding Lights by Weeknd", ""⟩]) 0 =
      ApiOutcome.respOk ([] ++ ⟨"bbbbbbbbbb2", "Blinding Lights (Official Audio) Weeknd", ""⟩ ::
        [⟨"aaaaaaaaaa1", "Blinding Lights by Weeknd", ""⟩]) ∧
     is_valid_video_id (ApiItem.mk "bbbbbbbbbb2" "Blinding Lights (Official Audio) Weeknd" "").videoId = true ∧
     is_official (lower (ApiItem.mk "bbbbbbbbbb2" "Blinding Lights (Official Audio) Weeknd" "").title) = true) ∧
    api_loop (lower "Blinding Lights") (artist_str ["Weeknd"]) ["Weeknd"]
      (fun _ => ApiOutcome.respOk
        [⟨"bbbbbbbbbb2", "Blinding Lights (Official Audio) Weeknd", ""⟩,
         ⟨"aaaaaaaaaa1", "Blinding Lights by Weeknd", ""⟩]) 0 ["q"] =
      (some "bbbbbbbbbb2", 1) :=
  ⟨⟨rfl, by decide, by decide⟩,
   official_wins_when_first_matching (lower "Blinding Lights") (artist_str ["Weeknd"])
     ["Weeknd"]
     (fun _ => ApiOutcome.respOk
       [⟨"bbbbbbbbbb2", "Blinding Lights (Official Audio) Weeknd", ""⟩,
        ⟨"aaaaaaaaaa1", "Blinding Lights by Weeknd", ""⟩]) 0 "q" []
     [] ⟨"bbbbbbbbbb2", "Blinding Lights (Official Audio) Weeknd", ""⟩
     [⟨"aaaaaaaaaa1", "Blinding Lights by Weeknd", ""⟩]
     rfl (by intro it hit; simp at hit) (by decide) (by decide) (by decide) (by decide)⟩

/-! ## Claim C4 -/

/-- Counterexample to C4: when a variant's only candidate is titled
`"Song Title #shorts"` the candidate scan skips it, but the per-variant
first-result fallback applies only the ID format check, so the API strategy
returns that candidate anyway. -/
theorem shorts_candidate_returned_counterexample :
    py_in "#shorts" (lower (lower "Song Title #shorts")) = true ∧
    search_with_api "Song Title" []
        (fun _ => .respOk [⟨"abcdefghijk", "Song Title #shorts", ""⟩]) =
      (some "abcdefghijk", 1) :=
  ⟨by decide, by decide⟩

/-- C4 as amended: in the candidate scan of the API strategy a candidate whose
lowercased title contains any of `#shorts`, `playlist`, `mix`, `compilation`
is skipped, so it is never returned by selection rule (a) or (b) (the
per-variant first-result fallback checks only ID format and may still return
such a candidate); and no strategy ever returns a candidate whose ID is
`undefined`. -/
theorem keyword_skip_and_no_undefined :
    (∀ (st ar : String) (a : List String) (item : ApiItem),
      filtered_keywords.any (fun k => py_in k (lower (lower item.title))) = true →
      api_item_decision st ar a item = none) ∧
    (∀ (cfg : ServiceConfig) (api : Nat → ApiOutcome) (http : Nat → ScrapeOutcome)
       (t : String) (a : List String),
      (search_video_id cfg api http t a).1 ≠ some "undefined") := by
  constructor
  · intro st ar a item h
    simp only [api_item_decision]
    split_ifs <;> simp_all
  · intro cfg api http t a hc
    have hval := search_video_id_fst_valid cfg api http t a "undefined" hc
    exact absurd hval (by decide)

/-- Witness for the amended C4 at a `#shorts`-titled candidate and a concrete
call. -/
theorem keyword_skip_and_no_undefined_witness :
    (filtered_keywords.any
        (fun k => py_in k (lower (lower (ApiItem.mk "abcdefghijk" "Song Title #shorts" "").title))) = true) ∧
    api_item_decision "song title" "" [] ⟨"abcdefghijk", "Song Title #shorts", ""⟩ = none ∧
    (search_video_id ⟨"", true, true⟩ (fun _ => ApiOutcome.respOk [])
        (fun _ => ScrapeOutcome.timeout) "song" []).1 ≠ some "undefined" :=
  ⟨by decide,
   keyword_skip_and_no_undefined.1 "song title" "" [] ⟨"abcdefghijk", "Song Title #shorts", ""⟩
     (by decide),
   keyword_skip_and_no_undefined.2 ⟨"", true, true⟩ (fun _ => ApiOutcome.respOk [])
     (fun _ => ScrapeOutcome.timeout) "song" []⟩

/-! ## Claim C8 -/

theorem extract_item_valid (item : Json) (s : String)
    (h : extract_item item = .ok (some s)) : is_valid_video_id s = true := by
  unfold extract_item at h
  split at h <;> try simp at h
  split_ifs at h <;> try simp at h
  split at h <;> try simp at h
  split at h <;> try simp at h
  split_ifs at h <;> try simp at h
  split at h <;> try simp at h
  obtain ⟨hval, rfl⟩ := h
  exact hval

theorem extract_items_loop_all_valid :
    ∀ (ns : List Json) (acc : List String),
      (∀ x ∈ acc, is_valid_video_id x = true) →
      ∀ x ∈ (extract_items_loop acc ns).1, is_valid_video_id x = true := by
  intro ns
  induction ns with
  | nil =>
    intro acc hacc
    simpa [extract_items_loop] using hacc
  | cons item rest ih =>
    intro acc hacc
    rw [extract_items_loop]
    cases he : extract_item item with
    | error e =>
      simpa using hacc
    | ok o =>
      cases o with
      | none => exact ih acc hacc
      | some s =>
        apply ih
        intro x hx
        rcases List.mem_append.mp hx with hx' | hx'
        · exact hacc x hx'
        · rw [List.mem_singleton] at hx'
          subst hx'
          exact extract_item_valid item x he

theorem extract_contents_loop_all_valid :
    ∀ (cs : List Json) (acc : List String),
      (∀ x ∈ acc, is_valid_video_id x = true) →
      ∀ x ∈ (extract_contents_loop acc cs).1, is_valid_video_id x = true := by
  intro cs
  induction cs with
  | nil =>
    intro acc hacc
    simpa [extract_contents_loop] using hacc
  | cons content rest ih =>
    intro acc hacc
    rw [extract_contents_loop]
    cases hi : content_items content with
    | error e =>
      simp only [hi]
      exact hacc
    | ok items =>
      simp only [hi]
      have hinner := extract_items_loop_all_valid items acc hacc
      cases hp : extract_items_loop acc items with
      | mk acc' b =>
        rw [hp] at hinner
        cases b with
        | true => exact hinner
        | false => exact ih acc' hinner

theorem extract_video_ids_all_valid (body : HttpBody) :
    ∀ x ∈ extract_video_ids_from_json body, is_valid_video_id x = true := by
  unfold extract_video_ids_from_json
  cases hyt : body.ytInitialData with
  | none =>
    simp only [hyt]
    intro x hx
    simp at hx
  | some data =>
    simp only [hyt]
    cases hnav : nav_contents_list data with
    | error e =>
      simp only [hnav]
      intro x hx
      simp at hx
    | ok cl =>
      simp only [hnav]
      exact extract_contents_loop_all_valid cl [] (by intro x hx; simp at hx)

/-- C8: the scraping strategy tries the query variants in the order
`official audio`, `official`, `music`, bare; on a 200 response it runs the
embedded-JSON pass and consults the `/watch?v=` regex pass only when the JSON
pass yields nothing, returning the first format-valid ID of whichever pass
produced results and falling to the next variant when neither does; every ID
the JSON pass yields is format-valid, so a nonempty JSON pass always selects
its first ID. -/
theorem scraping_order_and_passes (t : String) (a : List String)
    (http : Nat → ScrapeOutcome) (n : Nat) (q : String) (rest : List String)
    (body : HttpBody) :
    scrape_queries t a =
      [t ++ " " ++ artist_str a ++ " official audio",
       t ++ " " ++ artist_str a ++ " official",
       t ++ " " ++ artist_str a ++ " music",
       t ++ " " ++ artist_str a] ∧
    (strip q ≠ "" → http n = .resp 200 body →
      scrape_loop http n (q :: rest) =
        match (extract_video_ids_from_json body).find? is_valid_video_id with
        | some v => (some v, 1)
        | none =>
          match (find_watch_ids body.text).find? is_valid_video_id with
          | some v => (some v, 1)
          | none =>
            ((scrape_loop http (n + 1) rest).1, (scrape_loop http (n + 1) rest).2 + 1)) ∧
    (∀ v vs, extract_video_ids_from_json body = v :: vs →
      (extract_video_ids_from_json body).find? is_valid_video_id = some v) := by
  refine ⟨rfl, ?_, ?_⟩
  · intro hq hh
    rw [scrape_loop, if_neg hq]
    simp only [hh]
    simp
  · intro v vs he
    have hv : is_valid_video_id v = true :=
      extract_video_ids_all_valid body v (by rw [he]; exact List.mem_cons_self v vs)
    rw [he]
    exact List.find?_cons_of_pos vs hv

/-- A sample scraping response body whose embedded JSON yields one video ID. -/
def sample_yt_body : HttpBody :=
  ⟨some (.jobj [("contents", .jobj [("twoColumnSearchResultsRenderer",
    .jobj [("primaryContents", .jobj [("sectionListRenderer",
      .jobj [("contents", .jarr [.jobj [("itemSectionRenderer",
        .jobj [("contents", .jarr [.jobj [("videoRenderer",
          .jobj [("videoId", .jstr "dQw4w9WgXcQ")])]])])]])])])])])]),
   "<html></html>"⟩

/-- Witness for C8 at a concrete 200 response carrying `sample_yt_body`. -/
theorem scraping_order_and_passes_witness :
    (strip "q" ≠ "" ∧
      (fun _ : Nat => ScrapeOutcome.resp 200 sample_yt_body) 0 =
        ScrapeOutcome.resp 200 sample_yt_body ∧
      extract_video_ids_from_json sample_yt_body = "dQw4w9WgXcQ" :: []) ∧
    scrape_queries "song" ["artist"] =
      ["song" ++ " " ++ artist_str ["artist"] ++ " official audio",
       "song" ++ " " ++ artist_str ["artist"] ++ " official",
       "song" ++ " " ++ artist_str ["artist"] ++ " music",
       "song" ++ " " ++ artist_str ["artist"]] ∧
    scrape_loop (fun _ => ScrapeOutcome.resp 200 sample_yt_body) 0 ["q"] =
      (match (extract_video_ids_from_json sample_yt_body).find? is_valid_video_id with
       | some v => (some v, 1)
       | none =>
         match (find_watch_ids sample_yt_body.text).find? is_valid_video_id with
         | some v => (some v, 1)
         | none =>
           ((scrape_loop (fun _ => ScrapeOutcome.resp 200 sample_yt_body) 1 []).1,
            (scrape_loop (fun _ => ScrapeOutcome.resp 200 sample_yt_body) 1 []).2 + 1)) ∧
    (extract_video_ids_from_json sample_yt_body).find? is_valid_video_id =
      some "dQw4w9WgXcQ" :=
  ⟨⟨by decide, rfl, by decide⟩,
   (scraping_order_and_passes "song" ["artist"]
       (fun _ => ScrapeOutcome.resp 200 sample_yt_body) 0 "q" [] sample_yt_body).1,
   (scraping_order_and_passes "song" ["artist"]
       (fun _ => ScrapeOutcome.resp 200 sample_yt_body) 0 "q" [] sample_yt_body).2.1
     (by decide) rfl,
   (scraping_order_and_passes "song" ["artist"]
       (fun _ => ScrapeOutcome.resp 200 sample_yt_body) 0 "q" [] sample_yt_body).2.2
     "dQw4w9WgXcQ" [] (by decide)⟩
